import Mathlib

/-!
Verification development for the xentauri_pi_screen WebSocket client
(`XentauriWebSocket` class and `CONFIG` from the repository).

The client is shallowly embedded: numeric configuration and the backoff
arithmetic are modelled over `ℚ` (JavaScript's `Math.random()` value is an
explicit parameter `rand` with `0 ≤ rand < 1`), timers are modelled by an
explicit multiset of pending timer ids plus the single id stored in the
`reconnectTimer` field, and the event handlers of the class become functions
on an explicit state record.  JavaScript exceptions are modelled with
`Except`; a `try/catch` block turns the error case back into a normal
result.
-/

namespace CONFIG

namespace RECONNECT

/-- Config value `CONFIG.RECONNECT.BASE_DELAY = 1000` (start at 1 second). -/
def BASE_DELAY : ℚ := 1000

/-- Config value `CONFIG.RECONNECT.MAX_DELAY = 30000` (max 30 seconds). -/
def MAX_DELAY : ℚ := 30000

/-- Config value `CONFIG.RECONNECT.MULTIPLIER = 1.5` (exponential backoff multiplier). -/
def MULTIPLIER : ℚ := 3 / 2

/-- Config value `CONFIG.RECONNECT.JITTER = 0.1` (random jitter factor, 10%). -/
def JITTER : ℚ := 1 / 10

end RECONNECT

end CONFIG

/-- JavaScript's `Math.round`: round half toward positive infinity,
`Math.round(x) = ⌊x + 0.5⌋`. -/
def mathRound (x : ℚ) : ℤ := ⌊x + 1 / 2⌋

/-- Model of `XentauriWebSocket.calculateReconnectDelay`, with the instance field
`this.reconnectAttempts` and the value produced by `Math.random()` as
explicit arguments:

    let delay = BASE_DELAY * Math.pow(MULTIPLIER, this.reconnectAttempts);
    delay = Math.min(delay, MAX_DELAY);
    const jitterAmount = delay * JITTER;
    delay += Math.random() * jitterAmount * 2 - jitterAmount;
    return Math.round(delay);
-/
def calculateReconnectDelay (reconnectAttempts : ℕ) (rand : ℚ) : ℤ :=
  let delay := CONFIG.RECONNECT.BASE_DELAY * CONFIG.RECONNECT.MULTIPLIER ^ reconnectAttempts
  let delay := min delay CONFIG.RECONNECT.MAX_DELAY
  let jitterAmount := delay * CONFIG.RECONNECT.JITTER
  let delay := delay + (rand * jitterAmount * 2 - jitterAmount)
  mathRound delay

/-- The spec's `cap(attempt) = min(base * multiplier^attempt, maxDelay)`
(stated from the spec's formula, for comparison with the code). -/
def cap (attempt : ℕ) : ℚ :=
  min (CONFIG.RECONNECT.BASE_DELAY * CONFIG.RECONNECT.MULTIPLIER ^ attempt)
    CONFIG.RECONNECT.MAX_DELAY

/-- Values of `WebSocket.readyState`. -/
inductive ReadyState
  | CONNECTING
  | OPEN
  | CLOSING
  | CLOSED
deriving DecidableEq, Repr

/-- Inbound messages after `JSON.parse`, classified the way
`handleMessage`'s `switch (data.type)` does.  `malformed` stands for a raw
frame on which `JSON.parse` throws; `unknownType` is any other `type`
value (including a missing one), which falls to the `default:` branch. -/
inductive Inbound
  | malformed
  | welcome
  | command (command_id : String) (command_type : String)
  | heartbeatAck
  | unknownType (t : String)
deriving DecidableEq, Repr

/-- Messages the client writes to the socket: command acknowledgments
(`{type:'ack', command_id, status}`) and heartbeats (`{type:'heartbeat'}`). -/
inductive Outbound
  | ack (command_id : String) (status : String)
  | heartbeat
deriving DecidableEq, Repr

/-- Payload of the `onReconnecting` callback: `{attempt, delay}`. -/
structure ReconnectingEvent where
  attempt : ℕ
  delay : ℤ
deriving DecidableEq, Repr

/-- State of one `XentauriWebSocket` instance together with the part of the
browser environment the claims talk about.

Instance fields of the class:
* `ws` — `this.ws`: `none` when the field is `null`, otherwise the
  `readyState` of the socket the field points to;
* `connected` — `this.connected`;
* `reconnectAttempts` — `this.reconnectAttempts`;
* `reconnectTimer` — `this.reconnectTimer`: the timer id stored in the
  field, or `none`;
* `heartbeatOn` — whether `this.heartbeatInterval` holds a live interval;
* `agentIdValid` — whether `this.agentId` passes the check at the top of
  `connect()` (not falsy and not the `'YOUR_AGENT_ID_HERE'` placeholder).

Environment:
* `pendingTimers` — ids of all `setTimeout` reconnect timers that have been
  scheduled and neither fired nor been cancelled (the browser knows them
  all, even ones the `reconnectTimer` field no longer references);
* `nextTimerId` — fresh-id counter for `setTimeout`.

Ghost history fields (written only by this model, read by no transition):
* `welcomeSeen` — a message of `type: 'connected'` has been dispatched
  since the current socket was created;
* `openObserved` — an `open` event has been observed with no later `close`
  event or `disconnect()` call. -/
structure ClientState where
  ws : Option ReadyState
  connected : Bool
  reconnectAttempts : ℕ
  reconnectTimer : Option ℕ
  heartbeatOn : Bool
  agentIdValid : Bool
  pendingTimers : List ℕ
  nextTimerId : ℕ
  welcomeSeen : Bool
  openObserved : Bool
deriving DecidableEq, Repr

/-- The state right after the constructor runs (for a paired device, so the
agent id is configured): `ws = null`, `connected = false`,
`reconnectAttempts = 0`, no timers. -/
def initClient : ClientState where
  ws := none
  connected := false
  reconnectAttempts := 0
  reconnectTimer := none
  heartbeatOn := false
  agentIdValid := true
  pendingTimers := []
  nextTimerId := 0
  welcomeSeen := false
  openObserved := false

/-- Model of `if (this.reconnectTimer) { clearTimeout(this.reconnectTimer);
this.reconnectTimer = null; }` — cancels the timer the field refers to
(and only that one). -/
def clearReconnectTimer (s : ClientState) : ClientState :=
  match s.reconnectTimer with
  | some t =>
      { s with reconnectTimer := none, pendingTimers := s.pendingTimers.erase t }
  | none => s

/-- Model of `this.reconnectTimer = setTimeout(() => this.connect(), delay)` —
registers a fresh timer with the environment and overwrites the field
with its id, without touching any timer already pending. -/
def setReconnectTimeout (s : ClientState) : ClientState :=
  { s with
    reconnectTimer := some s.nextTimerId
    pendingTimers := s.pendingTimers ++ [s.nextTimerId]
    nextTimerId := s.nextTimerId + 1 }

/-- Model of `XentauriWebSocket.scheduleReconnect`:

    this.reconnectAttempts++;
    const delay = this.calculateReconnectDelay();
    this.onReconnecting({ attempt: this.reconnectAttempts, delay: delay });
    this.reconnectTimer = setTimeout(() => { this.connect(); }, delay);

Returns the new state and the `onReconnecting` payload. -/
def scheduleReconnect (rand : ℚ) (s : ClientState) :
    ClientState × ReconnectingEvent :=
  let s := { s with reconnectAttempts := s.reconnectAttempts + 1 }
  let delay := calculateReconnectDelay s.reconnectAttempts rand
  (setReconnectTimeout s, ⟨s.reconnectAttempts, delay⟩)

/-- Model of `XentauriWebSocket.connect`.  `ctorOk` says whether
`new WebSocket(url)` succeeds (on failure the `catch` branch calls
`scheduleReconnect`, whose `onReconnecting` payload is the second
component); `rand` feeds that call's `Math.random()`.  A successful
construction installs a fresh socket in the `CONNECTING` state; the
previous socket (if any) is told to close, and its eventual `close` event
is delivered later as a separate `handleClose` step with `current = false`. -/
def connect (ctorOk : Bool) (rand : ℚ) (s : ClientState) :
    ClientState × Option ReconnectingEvent :=
  if s.agentIdValid = false then
    -- logError + onError({type:'config_error', ...}); return
    (s, none)
  else
    let s := clearReconnectTimer s
    -- if (this.ws) this.ws.close();  — the old socket starts closing
    let s :=
      match s.ws with
      | some _ => { s with ws := some ReadyState.CLOSING }
      | none => s
    if ctorOk then
      ({ s with ws := some ReadyState.CONNECTING, welcomeSeen := false }, none)
    else
      -- catch: logError; this.scheduleReconnect()
      let (s, ev) := scheduleReconnect rand s
      (s, some ev)

/-- Model of `XentauriWebSocket.disconnect`: clear the heartbeat interval and any
pending reconnect timer, `this.ws.close(1000, 'Client disconnect')`,
`this.ws = null`, `this.connected = false`. -/
def disconnect (s : ClientState) : ClientState :=
  let s := { s with heartbeatOn := false }
  let s := clearReconnectTimer s
  { s with ws := none, connected := false, openObserved := false }

/-- Model of `XentauriWebSocket.handleOpen` (delivered when the current socket
reaches the `OPEN` ready state): `this.connected = true`,
`this.reconnectAttempts = 0`, `startHeartbeat()` (which replaces any
existing interval), then `onConnected()`. -/
def handleOpen (s : ClientState) : ClientState :=
  { s with
    ws := some ReadyState.OPEN
    connected := true
    reconnectAttempts := 0
    heartbeatOn := true
    openObserved := true }

/-- Model of `XentauriWebSocket.handleClose`.  `current` says whether the closing
socket is still the one `this.ws` points to (after `forceReconnect` or
`connect`, a stale socket's close event can arrive while `this.ws` already
holds a new socket).  The handler body:

    this.connected = false;
    if (this.heartbeatInterval) { clearInterval(...); ... = null; }
    this.onDisconnected({ code, reason });
    if (event.code !== 1000) { this.scheduleReconnect(); }

Returns the new state and the `onReconnecting` payload when a reconnect
was scheduled. -/
def handleClose (current : Bool) (code : ℕ) (rand : ℚ) (s : ClientState) :
    ClientState × Option ReconnectingEvent :=
  let s :=
    if current then { s with ws := s.ws.map fun _ => ReadyState.CLOSED } else s
  let s := { s with connected := false, heartbeatOn := false, openObserved := false }
  if code ≠ 1000 then
    let (s, ev) := scheduleReconnect rand s
    (s, some ev)
  else
    (s, none)

/-- Model of `XentauriWebSocket.send`: fails fast when `this.ws` is null or its
`readyState` is not `OPEN`, otherwise serializes and writes the message.
Returns the boolean result and the list of frames actually written to the
socket (empty on failure — nothing is queued). -/
def send (message : Outbound) (s : ClientState) : Bool × List Outbound :=
  if s.ws = some ReadyState.OPEN then (true, [message]) else (false, [])

/-- Model of `XentauriWebSocket.sendAck`: `this.send({type:'ack', command_id, status})`. -/
def sendAck (commandId : String) (status : String) (s : ClientState) :
    Bool × List Outbound :=
  send (Outbound.ack commandId status) s

/-- Model of `XentauriWebSocket.handleCommand`, with the externally-registered
`onCommand` handler abstracted by `handlerOk`: `true` when the handler
returns normally, `false` when it throws.  The body runs

    this.onCommand({commandId, commandType, parameters});
    this.sendAck(command_id, 'completed');

with no `try/catch` of its own, so a throwing handler aborts the method
before `sendAck` runs; the exception propagates to the caller
(`Except.error`).  On the normal path the result is the list of frames the
ack attempt put on the wire. -/
def handleCommand (handlerOk : Bool) (command_id : String) (s : ClientState) :
    Except Unit (List Outbound) :=
  if handlerOk then Except.ok (sendAck command_id "completed" s).2
  else Except.error ()

/-- Model of `XentauriWebSocket.handleMessage`: the whole body — `JSON.parse`, the
`switch` on `data.type`, and the nested `handleCommand` call — sits inside
one `try { ... } catch (e) { this.logError('Failed to parse message', e); }`,
so both a malformed frame and a throwing command handler are caught here
and dropped.  Returns the (ghost-updated) state and the frames written. -/
def handleMessage (handlerOk : Bool) (m : Inbound) (s : ClientState) :
    ClientState × List Outbound :=
  match m with
  | Inbound.malformed => (s, [])
  | Inbound.welcome => ({ s with welcomeSeen := true }, [])
  | Inbound.command cid _ =>
      match handleCommand handlerOk cid s with
      | Except.ok out => (s, out)
      | Except.error _ => (s, [])
  | Inbound.heartbeatAck => (s, [])
  | Inbound.unknownType _ => (s, [])

/-- Model of `XentauriWebSocket.forceReconnect`:

    this.reconnectAttempts = 0;
    if (this.reconnectTimer) { clearTimeout(...); ... = null; }
    this.connect();

Note: it does not touch `this.heartbeatInterval` and does not set
`this.connected = false`. -/
def forceReconnect (ctorOk : Bool) (rand : ℚ) (s : ClientState) :
    ClientState × Option ReconnectingEvent :=
  let s := { s with reconnectAttempts := 0 }
  let s := clearReconnectTimer s
  connect ctorOk rand s

/-- One tick of the interval installed by `startHeartbeat`:
`if (this.connected) { this.sendHeartbeat(); }`, where `sendHeartbeat`
calls `this.send({type:'heartbeat'})`.  The tick can only occur while the
interval is live, and never changes the state; the result is the list of
frames written. -/
def heartbeatTick (s : ClientState) : ClientState × List Outbound :=
  if s.heartbeatOn then
    if s.connected then (s, (send Outbound.heartbeat s).2) else (s, [])
  else (s, [])

/-- A pending reconnect timer `t` fires: the environment removes it from
the pending set and runs the callback `() => { this.connect(); }`. -/
def timerFires (t : ℕ) (ctorOk : Bool) (rand : ℚ) (s : ClientState) :
    ClientState × Option ReconnectingEvent :=
  if t ∈ s.pendingTimers then
    connect ctorOk rand { s with pendingTimers := s.pendingTimers.erase t }
  else
    (s, none)

/-- The events a run of the client can experience. -/
inductive Event
  | connectEv (ctorOk : Bool) (rand : ℚ)
  | openEv
  | messageEv (handlerOk : Bool) (m : Inbound)
  | closeEv (current : Bool) (code : ℕ) (rand : ℚ)
  | disconnectEv
  | forceReconnectEv (ctorOk : Bool) (rand : ℚ)
  | timerFiresEv (t : ℕ) (ctorOk : Bool) (rand : ℚ)
  | heartbeatTickEv

/-- One step of the client, outputs discarded. -/
def step (s : ClientState) (e : Event) : ClientState :=
  match e with
  | Event.connectEv ok r => (connect ok r s).1
  | Event.openEv => handleOpen s
  | Event.messageEv hOk m => (handleMessage hOk m s).1
  | Event.closeEv cur c r => (handleClose cur c r s).1
  | Event.disconnectEv => disconnect s
  | Event.forceReconnectEv ok r => (forceReconnect ok r s).1
  | Event.timerFiresEv t ok r => (timerFires t ok r s).1
  | Event.heartbeatTickEv => (heartbeatTick s).1

/-- Run the client from a state through a list of events. -/
def run (s : ClientState) (es : List Event) : ClientState := es.foldl step s

/-! ### Helper lemmas about the backoff calculator -/

lemma one_le_mult_pow (a : ℕ) : (1 : ℚ) ≤ CONFIG.RECONNECT.MULTIPLIER ^ a :=
  one_le_pow₀ (by norm_num [CONFIG.RECONNECT.MULTIPLIER])

lemma cap_ge (a : ℕ) : 1000 ≤ cap a := by
  unfold cap
  apply le_min
  · have h := one_le_mult_pow a
    unfold CONFIG.RECONNECT.BASE_DELAY
    nlinarith
  · norm_num [CONFIG.RECONNECT.MAX_DELAY]

lemma calcDelay_eq (a : ℕ) (r : ℚ) :
    calculateReconnectDelay a r =
      mathRound (cap a +
        (r * (cap a * CONFIG.RECONNECT.JITTER) * 2 - cap a * CONFIG.RECONNECT.JITTER)) :=
  rfl

lemma calculateReconnectDelay_bounds (a : ℕ) (r : ℚ) (h0 : 0 ≤ r) (h1 : r < 1) :
    cap a * (1 - CONFIG.RECONNECT.JITTER) - 1 / 2 ≤ (calculateReconnectDelay a r : ℚ) ∧
    (calculateReconnectDelay a r : ℚ) ≤ cap a * (1 + CONFIG.RECONNECT.JITTER) + 1 / 2 ∧
    0 ≤ calculateReconnectDelay a r := by
  have hc := cap_ge a
  have hJ : CONFIG.RECONNECT.JITTER = 1 / 10 := rfl
  rw [calcDelay_eq]
  set x := cap a +
    (r * (cap a * CONFIG.RECONNECT.JITTER) * 2 - cap a * CONFIG.RECONNECT.JITTER) with hx
  have hxl : cap a * (1 - CONFIG.RECONNECT.JITTER) ≤ x := by
    rw [hx, hJ]
    nlinarith
  have hxu : x ≤ cap a * (1 + CONFIG.RECONNECT.JITTER) := by
    rw [hx, hJ]
    nlinarith
  have hfl : (x + 1 / 2) - 1 < ((mathRound x : ℤ) : ℚ) := Int.sub_one_lt_floor _
  have hfu : ((mathRound x : ℤ) : ℚ) ≤ x + 1 / 2 := Int.floor_le _
  have hpos : (0 : ℚ) < ((mathRound x : ℤ) : ℚ) := by
    rw [hJ] at hxl
    nlinarith
  refine ⟨by linarith, by linarith, ?_⟩
  exact_mod_cast le_of_lt hpos

/-! ### Concrete reachable states used by counterexamples and witnesses -/

/-- The state after `connect()` succeeds and the socket's `open` event is
delivered, before any message arrives. -/
def connectedState : ClientState :=
  run initClient [Event.connectEv true 0, Event.openEv]

/-- State `connectedState` after one abnormal close (code 1006): a retry timer is
pending. -/
def retryPendingState : ClientState :=
  run initClient [Event.connectEv true 0, Event.openEv, Event.closeEv true 1006 0]

/-- The state after two abnormal closes in rapid succession (a second close
event delivered while the first retry timer is still pending). -/
def doubleCloseState : ClientState :=
  run initClient
    [Event.connectEv true 0, Event.openEv,
      Event.closeEv true 1006 0, Event.closeEv true 1006 0]

/-! ### Helper lemmas about the state machine -/

lemma clearReconnectTimer_connected (s : ClientState) :
    (clearReconnectTimer s).connected = s.connected ∧
    (clearReconnectTimer s).openObserved = s.openObserved ∧
    (clearReconnectTimer s).ws = s.ws ∧
    (clearReconnectTimer s).agentIdValid = s.agentIdValid ∧
    (clearReconnectTimer s).heartbeatOn = s.heartbeatOn := by
  cases h : s.reconnectTimer <;> simp [clearReconnectTimer, h]

lemma connect_fst_connected (ok : Bool) (r : ℚ) (s : ClientState) :
    (connect ok r s).1.connected = s.connected ∧
    (connect ok r s).1.openObserved = s.openObserved ∧
    (connect ok r s).1.heartbeatOn = s.heartbeatOn := by
  cases hT : s.reconnectTimer <;> cases hW : s.ws <;> cases ok <;>
    simp [connect, clearReconnectTimer, scheduleReconnect, setReconnectTimeout, hT, hW] <;>
    split_ifs <;> simp

lemma step_pres (s : ClientState) (e : Event) (h : s.connected = s.openObserved) :
    (step s e).connected = (step s e).openObserved := by
  cases e with
  | connectEv ok r =>
      obtain ⟨h1, h2, h3⟩ := connect_fst_connected ok r s
      show (connect ok r s).1.connected = (connect ok r s).1.openObserved
      rw [h1, h2]
      exact h
  | openEv => simp [step, handleOpen]
  | messageEv hOk m =>
      cases m <;> cases hOk <;>
        simp [step, handleMessage, handleCommand, sendAck, send, h]
  | closeEv cur c r =>
      simp only [step, handleClose]
      split_ifs <;> simp [scheduleReconnect, setReconnectTimeout]
  | disconnectEv =>
      obtain ⟨h1, h2, h3, h4, h5⟩ := clearReconnectTimer_connected { s with heartbeatOn := false }
      simp [step, disconnect]
  | forceReconnectEv ok r =>
      obtain ⟨h1, h2, h3⟩ := connect_fst_connected ok r
        (clearReconnectTimer { s with reconnectAttempts := 0 })
      obtain ⟨g1, g2, g3, g4, g5⟩ := clearReconnectTimer_connected { s with reconnectAttempts := 0 }
      show (connect ok r (clearReconnectTimer { s with reconnectAttempts := 0 })).1.connected =
        (connect ok r (clearReconnectTimer { s with reconnectAttempts := 0 })).1.openObserved
      rw [h1, h2, g1, g2]
      exact h
  | timerFiresEv t ok r =>
      simp only [step, timerFires]
      split_ifs with ht
      · obtain ⟨h1, h2, h3⟩ := connect_fst_connected ok r
          { s with pendingTimers := s.pendingTimers.erase t }
        rw [h1, h2]
        exact h
      · exact h
  | heartbeatTickEv =>
      simp only [step, heartbeatTick]
      split_ifs <;> simp [h]

lemma run_connected_eq (es : List Event) (s : ClientState)
    (h : s.connected = s.openObserved) :
    (run s es).connected = (run s es).openObserved := by
  induction es generalizing s with
  | nil => exact h
  | cons e es ih => exact ih (step s e) (step_pres s e h)

/-- The state reached from `connectedState` by one abnormal close (code
1006) of the current socket: the session is down, a retry is pending. -/
def afterCloseState : ClientState := (handleClose true 1006 0 connectedState).1

/-! ### Claims -/

/-- Claim C1, counterexample: at `attempt = 5` with the random source
producing `0`, the unrounded delay is exactly `cap(5)*(1-jitter) =
6834.375`, and `Math.round` moves it to `6834`, strictly below the
interval `[cap(5)*(1-jitter), cap(5)*(1+jitter)]` the claim asserts —
even though `0` is a value `Math.random()` may produce. -/
theorem C1_counterexample :
    (0 : ℚ) ≤ 0 ∧ (0 : ℚ) < 1 ∧
    (calculateReconnectDelay 5 0 : ℚ) < cap 5 * (1 - CONFIG.RECONNECT.JITTER) := by
  refine ⟨le_refl 0, by norm_num, ?_⟩
  norm_num [calculateReconnectDelay, mathRound, cap, CONFIG.RECONNECT.BASE_DELAY,
    CONFIG.RECONNECT.MULTIPLIER, CONFIG.RECONNECT.MAX_DELAY, CONFIG.RECONNECT.JITTER]

/-- Claim C1 as amended: for every `attempt ≥ 0` and every value the
random source may produce (`0 ≤ rand < 1`), the delay computed by
`calculateReconnectDelay` lies within the claimed interval widened by the
half-unit `Math.round` can move it —
`[cap(attempt)*(1-jitter) - 1/2, cap(attempt)*(1+jitter) + 1/2]` — and is
never negative. -/
theorem C1_delay_within_bounds (a : ℕ) (r : ℚ) (h0 : 0 ≤ r) (h1 : r < 1) :
    cap a * (1 - CONFIG.RECONNECT.JITTER) - 1 / 2 ≤ (calculateReconnectDelay a r : ℚ) ∧
    (calculateReconnectDelay a r : ℚ) ≤ cap a * (1 + CONFIG.RECONNECT.JITTER) + 1 / 2 ∧
    0 ≤ calculateReconnectDelay a r :=
  calculateReconnectDelay_bounds a r h0 h1

/-- Witness for `C1_delay_within_bounds` at `attempt = 3`, `rand = 1/2`. -/
theorem C1_delay_within_bounds_witness :
    (0 : ℚ) ≤ 1 / 2 ∧ (1 / 2 : ℚ) < 1 ∧
    (cap 3 * (1 - CONFIG.RECONNECT.JITTER) - 1 / 2 ≤ (calculateReconnectDelay 3 (1 / 2) : ℚ) ∧
      (calculateReconnectDelay 3 (1 / 2) : ℚ) ≤ cap 3 * (1 + CONFIG.RECONNECT.JITTER) + 1 / 2 ∧
      0 ≤ calculateReconnectDelay 3 (1 / 2)) :=
  ⟨by norm_num, by norm_num, C1_delay_within_bounds 3 (1 / 2) (by norm_num) (by norm_num)⟩

/-- Claim C2, counterexample: in the reachable connected state, when the
externally-registered command handler throws (`handlerOk = false`), the
dispatch of a `command` message writes no frame at all — in particular no
`{command_id, status: completed}` acknowledgment — because the exception
thrown by `this.onCommand(...)` aborts `handleCommand` before the
`this.sendAck(command_id, 'completed')` line. -/
theorem C2_counterexample :
    connectedState.ws = some ReadyState.OPEN ∧
    (handleMessage false (Inbound.command "c1" "clear_content") connectedState).2 = [] := by
  exact ⟨by decide, by decide⟩

/-- Claim C2 as amended: a throwing handler makes `handleCommand` raise
(`Except.error`), and that exception is caught at the `handleMessage`
boundary — dispatch returns normally with the connection state untouched,
so nothing propagates into transport teardown — but the acknowledgment is
then skipped: the ack `{command_id, status: completed}` is sent only when
the handler returns normally. -/
theorem C2_handler_exception_contained (cid ctype : String) (s : ClientState)
    (hOpen : s.ws = some ReadyState.OPEN) :
    handleCommand false cid s = Except.error () ∧
    (handleMessage false (Inbound.command cid ctype) s).1 = s ∧
    (handleMessage false (Inbound.command cid ctype) s).2 = [] ∧
    (handleMessage true (Inbound.command cid ctype) s).2 = [Outbound.ack cid "completed"] := by
  refine ⟨rfl, rfl, rfl, ?_⟩
  simp [handleMessage, handleCommand, sendAck, send, hOpen]

/-- Witness for `C2_handler_exception_contained` at the reachable
connected state with command id `c1`. -/
theorem C2_handler_exception_contained_witness :
    connectedState.ws = some ReadyState.OPEN ∧
    (handleCommand false "c1" connectedState = Except.error () ∧
      (handleMessage false (Inbound.command "c1" "clear_content") connectedState).1 =
        connectedState ∧
      (handleMessage false (Inbound.command "c1" "clear_content") connectedState).2 = [] ∧
      (handleMessage true (Inbound.command "c1" "clear_content") connectedState).2 =
        [Outbound.ack "c1" "completed"]) :=
  ⟨by decide, C2_handler_exception_contained "c1" "clear_content" connectedState (by decide)⟩

/-- Claim C3, counterexample: the state reached by `connect()` followed by
the socket's `open` event is `connected = true` with the socket `OPEN`,
yet no handshake/welcome message of type `connected` has been observed on
that socket — `handleOpen` alone sets the flag, so "Connected iff socket
open AND welcome observed" fails in a reachable state. -/
theorem C3_counterexample :
    connectedState.connected = true ∧
    connectedState.ws = some ReadyState.OPEN ∧
    connectedState.welcomeSeen = false := by decide

/-- Claim C3 as amended: in every reachable state the `connected` flag
holds iff an `open` event has been observed with no later close event or
`disconnect()` call (ghost field `openObserved`); the welcome message of
type `connected` is logged only and leaves the flag unchanged, so it is
neither necessary nor sufficient for the Connected state. -/
theorem C3_connected_tracks_open_event :
    (∀ es : List Event,
      (run initClient es).connected = (run initClient es).openObserved) ∧
    (∀ (hOk : Bool) (s : ClientState),
      (handleMessage hOk Inbound.welcome s).1.connected = s.connected) := by
  constructor
  · intro es
    exact run_connected_eq es initClient rfl
  · intro hOk s
    rfl

/-- Claim C4, counterexample: after two abnormal close events in rapid
succession (the second delivered while the first retry timer is still
pending), two retry timers are outstanding, not one —
`scheduleReconnect` never clears the pending timer, it only overwrites
the `reconnectTimer` field with the new id. -/
theorem C4_counterexample :
    doubleCloseState.pendingTimers = [0, 1] ∧
    doubleCloseState.pendingTimers.length ≠ 1 := by decide

/-- Claim C4 as amended: on every abnormal close the handler schedules a
fresh retry timer without clearing a pending one — the new timer id is
appended to the outstanding set and only the `reconnectTimer` field is
overwritten — so two abnormal closes in rapid succession leave two
pending retry timers (pending timers are cleared only by `connect`,
`disconnect`, and `forceReconnect`). -/
theorem C4_abnormal_close_appends_timer (cur : Bool) (code : ℕ) (r : ℚ)
    (s : ClientState) (h : code ≠ 1000) :
    (handleClose cur code r s).1.pendingTimers = s.pendingTimers ++ [s.nextTimerId] ∧
    (handleClose cur code r s).1.reconnectTimer = some s.nextTimerId := by
  cases cur <;> simp [handleClose, scheduleReconnect, setReconnectTimeout, h]

/-- Witness for `C4_abnormal_close_appends_timer`: a second abnormal close
in the reachable state that already has a pending retry timer. -/
theorem C4_abnormal_close_appends_timer_witness :
    (1006 ≠ 1000) ∧
    ((handleClose true 1006 0 retryPendingState).1.pendingTimers =
        retryPendingState.pendingTimers ++ [retryPendingState.nextTimerId] ∧
      (handleClose true 1006 0 retryPendingState).1.reconnectTimer =
        some retryPendingState.nextTimerId) :=
  ⟨by decide, C4_abnormal_close_appends_timer true 1006 0 retryPendingState (by decide)⟩

/-- Claim C5, counterexample: from the established connected state
(`reconnectAttempts = 0`), an abnormal close with code 1006 fires
`onReconnecting` with `attempt = 1` but a delay of 1500 ms (at the
midpoint random value), not ~1000 ms: `scheduleReconnect` increments the
counter before calling `calculateReconnectDelay`, so the first retry
already uses `base * multiplier = 1500` — outside `[900, 1100]`, the base
delay within 10% jitter. -/
theorem C5_counterexample :
    connectedState.connected = true ∧ connectedState.reconnectAttempts = 0 ∧
    (handleClose true 1006 (1 / 2) connectedState).2 =
      some { attempt := 1, delay := 1500 } ∧
    ¬ ((1500 : ℤ) ≤ 1100) := by
  refine ⟨by decide, by decide, ?_, by norm_num⟩
  simp [handleClose, connectedState, run, step, connect, handleOpen, initClient,
    clearReconnectTimer, scheduleReconnect, setReconnectTimeout]
  norm_num [calculateReconnectDelay, mathRound, CONFIG.RECONNECT.BASE_DELAY,
    CONFIG.RECONNECT.MULTIPLIER, CONFIG.RECONNECT.MAX_DELAY, CONFIG.RECONNECT.JITTER]

/-- Claim C5 as amended: when an established (Connected, attempt counter 0)
session reports an abnormal close such as code 1006, the client leaves the
Connected state, fires `onReconnecting` with `attempt = 1` and a delay of
approximately 1500 ms (`base * multiplier`, within the 10% jitter:
`delay ∈ [1350, 1650]`), and schedules a retry timer. -/
theorem C5_abnormal_close_reconnecting (s : ClientState) (r : ℚ)
    (_hconn : s.connected = true) (hatt : s.reconnectAttempts = 0)
    (h0 : 0 ≤ r) (h1 : r < 1) :
    (handleClose true 1006 r s).1.connected = false ∧
    (handleClose true 1006 r s).1.pendingTimers = s.pendingTimers ++ [s.nextTimerId] ∧
    ∃ d : ℤ, (handleClose true 1006 r s).2 = some { attempt := 1, delay := d } ∧
      1350 ≤ d ∧ d ≤ 1650 := by
  have heq : (handleClose true 1006 r s).2 =
      some { attempt := 1, delay := calculateReconnectDelay 1 r } := by
    simp [handleClose, scheduleReconnect, setReconnectTimeout, hatt]
  obtain ⟨hl, hu, hnn⟩ := calculateReconnectDelay_bounds 1 r h0 h1
  have hcap : cap 1 = 1500 := by
    norm_num [cap, CONFIG.RECONNECT.BASE_DELAY, CONFIG.RECONNECT.MULTIPLIER,
      CONFIG.RECONNECT.MAX_DELAY]
  have hJ : CONFIG.RECONNECT.JITTER = 1 / 10 := rfl
  rw [hcap, hJ] at hl hu
  refine ⟨?_, ?_, calculateReconnectDelay 1 r, heq, ?_, ?_⟩
  · simp [handleClose, scheduleReconnect, setReconnectTimeout]
  · simp [handleClose, scheduleReconnect, setReconnectTimeout]
  · have hq : (1349 : ℚ) < (calculateReconnectDelay 1 r : ℚ) := by linarith
    have hz : (1349 : ℤ) < calculateReconnectDelay 1 r := by exact_mod_cast hq
    omega
  · have hq : (calculateReconnectDelay 1 r : ℚ) < 1651 := by linarith
    have hz : calculateReconnectDelay 1 r < (1651 : ℤ) := by exact_mod_cast hq
    omega

/-- Witness for `C5_abnormal_close_reconnecting` at the reachable
connected state with the midpoint random value. -/
theorem C5_abnormal_close_reconnecting_witness :
    connectedState.connected = true ∧ connectedState.reconnectAttempts = 0 ∧
    (0 : ℚ) ≤ 1 / 2 ∧ (1 / 2 : ℚ) < 1 ∧
    ((handleClose true 1006 (1 / 2) connectedState).1.connected = false ∧
      (handleClose true 1006 (1 / 2) connectedState).1.pendingTimers =
        connectedState.pendingTimers ++ [connectedState.nextTimerId] ∧
      ∃ d : ℤ, (handleClose true 1006 (1 / 2) connectedState).2 =
          some { attempt := 1, delay := d } ∧ 1350 ≤ d ∧ d ≤ 1650) :=
  ⟨by decide, by decide, by norm_num, by norm_num,
    C5_abnormal_close_reconnecting connectedState (1 / 2) (by decide) (by decide)
      (by norm_num) (by norm_num)⟩

/-- Claim C6, counterexample: in the reachable two-timer state left by two
rapid abnormal closes, `forceReconnect()` clears only the timer id stored
in the `reconnectTimer` field (id 1): the orphaned earlier timer (id 0)
is still pending afterwards, and when it later fires it runs
`this.connect()` again — a duplicate connection attempt superseding the
forced one — refuting "the pending timer never fires afterwards, so no
duplicate session is created" for a state with a pending retry timer. -/
theorem C6_counterexample :
    doubleCloseState.pendingTimers = [0, 1] ∧
    doubleCloseState.reconnectTimer = some 1 ∧
    (forceReconnect true 0 doubleCloseState).1.pendingTimers = [0] ∧
    0 ∈ (forceReconnect true 0 doubleCloseState).1.pendingTimers ∧
    (timerFires 0 true 0 (forceReconnect true 0 doubleCloseState).1).1.ws =
      some ReadyState.CONNECTING ∧
    (timerFires 0 true 0 (forceReconnect true 0 doubleCloseState).1).1.pendingTimers = [] := by
  decide

/-- Claim C6 as amended: in every state (with a configured agent id),
`forceReconnect()` resets the reconnect counter to 0, cancels exactly the
pending retry timer the `reconnectTimer` field refers to — so that timer
never fires afterwards, but any orphaned timer the field no longer
references stays pending — and immediately installs a fresh `CONNECTING`
socket without scheduling any backoff delay. -/
theorem C6_forceReconnect_immediate (s : ClientState) (r : ℚ)
    (hA : s.agentIdValid = true) :
    (forceReconnect true r s).1.reconnectAttempts = 0 ∧
    (forceReconnect true r s).1.pendingTimers = (clearReconnectTimer s).pendingTimers ∧
    (forceReconnect true r s).1.reconnectTimer = none ∧
    (forceReconnect true r s).1.ws = some ReadyState.CONNECTING ∧
    (forceReconnect true r s).2 = none := by
  cases hT : s.reconnectTimer <;> cases hW : s.ws <;>
    simp [forceReconnect, connect, clearReconnectTimer, hA, hT, hW]

/-- Witness for `C6_forceReconnect_immediate` at the reachable state with
one pending retry timer (where the cancelled timer was the only one, so
none survives). -/
theorem C6_forceReconnect_immediate_witness :
    retryPendingState.agentIdValid = true ∧
    ((forceReconnect true 0 retryPendingState).1.reconnectAttempts = 0 ∧
      (forceReconnect true 0 retryPendingState).1.pendingTimers =
        (clearReconnectTimer retryPendingState).pendingTimers ∧
      (forceReconnect true 0 retryPendingState).1.reconnectTimer = none ∧
      (forceReconnect true 0 retryPendingState).1.ws = some ReadyState.CONNECTING ∧
      (forceReconnect true 0 retryPendingState).2 = none) :=
  ⟨by decide, C6_forceReconnect_immediate retryPendingState 0 (by decide)⟩

/-- Claim C7: a close event schedules a reconnection attempt (the
`onReconnecting` payload is produced and the pending-timer count grows by
one) iff its code differs from the clean-close code 1000; in particular
the code-1000 close produced by an explicit `disconnect()` — which itself
leaves no reconnect timer — never schedules a retry. -/
theorem C7_reconnect_iff_abnormal (cur : Bool) (code : ℕ) (r : ℚ) (s : ClientState) :
    ((handleClose cur code r s).2.isSome ↔ code ≠ 1000) ∧
    (handleClose cur code r s).1.pendingTimers.length =
      (if code ≠ 1000 then s.pendingTimers.length + 1 else s.pendingTimers.length) ∧
    (disconnect s).reconnectTimer = none := by
  by_cases h : code = 1000 <;> cases cur <;>
    cases hT : s.reconnectTimer <;>
    simp [handleClose, scheduleReconnect, setReconnectTimeout, disconnect,
      clearReconnectTimer, hT, h]

/-- Claim C8, counterexample: from the connected state with a live
heartbeat interval, `forceReconnect()` exits the Connected session (the
socket becomes a fresh `CONNECTING` one) yet leaves the heartbeat
interval running — the forced-reconnect exit path does not stop the
heartbeat timer within the same tick, contradicting the claim. -/
theorem C8_counterexample :
    connectedState.heartbeatOn = true ∧ connectedState.connected = true ∧
    (forceReconnect true 0 connectedState).1.heartbeatOn = true ∧
    (forceReconnect true 0 connectedState).1.ws = some ReadyState.CONNECTING := by
  decide

/-- Claim C8 as amended: every close event and every explicit
`disconnect()` stops the heartbeat interval within the same handler, but
`forceReconnect()` leaves it exactly as it was (it is cleared only when
the old socket's close event later arrives); still, no heartbeat envelope
is ever sent after the session closes, because a tick writes nothing when
the `connected` flag is false, and nothing reaches the wire unless the
current socket is `OPEN`. -/
theorem C8_heartbeat_stops (cur : Bool) (code : ℕ) (r : ℚ) (ok : Bool) (s : ClientState) :
    (handleClose cur code r s).1.heartbeatOn = false ∧
    (disconnect s).heartbeatOn = false ∧
    (forceReconnect ok r s).1.heartbeatOn = s.heartbeatOn ∧
    (s.connected = false → (heartbeatTick s).2 = []) ∧
    (s.ws ≠ some ReadyState.OPEN → (heartbeatTick s).2 = []) := by
  refine ⟨?_, ?_, ?_, ?_, ?_⟩
  · by_cases h : code = 1000 <;> cases cur <;>
      simp [handleClose, scheduleReconnect, setReconnectTimeout, h]
  · obtain ⟨h1, h2, h3, h4, h5⟩ := clearReconnectTimer_connected { s with heartbeatOn := false }
    simp [disconnect, h5]
  · obtain ⟨h1, h2, h3⟩ := connect_fst_connected ok r
      (clearReconnectTimer { s with reconnectAttempts := 0 })
    obtain ⟨g1, g2, g3, g4, g5⟩ := clearReconnectTimer_connected { s with reconnectAttempts := 0 }
    show (connect ok r (clearReconnectTimer { s with reconnectAttempts := 0 })).1.heartbeatOn =
      s.heartbeatOn
    rw [h3, g5]
  · intro h
    simp [heartbeatTick, h]
  · intro h
    cases hb : s.heartbeatOn <;> cases hc : s.connected <;>
      simp [heartbeatTick, send, h, hb, hc]

/-- Witness for `C8_heartbeat_stops` at the reachable closed state. -/
theorem C8_heartbeat_stops_witness :
    (handleClose true 1006 0 afterCloseState).1.heartbeatOn = false ∧
    (disconnect afterCloseState).heartbeatOn = false ∧
    (forceReconnect true 0 afterCloseState).1.heartbeatOn = afterCloseState.heartbeatOn ∧
    (heartbeatTick afterCloseState).2 = [] := by
  obtain ⟨h1, h2, h3, h4, h5⟩ := C8_heartbeat_stops true 1006 0 true afterCloseState
  exact ⟨h1, h2, h3, h4 (by decide)⟩

/-- Claim C9: a malformed raw message (`JSON.parse` throws) and a message
whose `type` is unrecognized or missing are logged and dropped — dispatch
returns normally (`handleMessage` is a total function: the surrounding
`try/catch` converts any exception into a logged drop), writes nothing,
and leaves the state untouched; moreover, for every inbound message
whatsoever, the dispatch path leaves the socket, the `connected` flag,
and the timers unchanged, so the session stays open. -/
theorem C9_malformed_dropped (hOk : Bool) (t : String) (s : ClientState) :
    handleMessage hOk Inbound.malformed s = (s, []) ∧
    handleMessage hOk (Inbound.unknownType t) s = (s, []) ∧
    ∀ m : Inbound,
      (handleMessage hOk m s).1.ws = s.ws ∧
      (handleMessage hOk m s).1.connected = s.connected ∧
      (handleMessage hOk m s).1.pendingTimers = s.pendingTimers := by
  refine ⟨rfl, rfl, ?_⟩
  intro m
  cases m <;> cases hOk <;> simp [handleMessage, handleCommand, sendAck, send]

/-- Claim C10: for every message, `send` while the socket is absent or not
in the `OPEN` ready state returns `false` to the immediate caller —
`send` is a total function, so no exception — and writes nothing: the
message is neither transmitted, queued, nor retried. -/
theorem C10_send_not_open_fails (m : Outbound) (s : ClientState)
    (h : s.ws ≠ some ReadyState.OPEN) :
    send m s = (false, []) := by
  simp [send, h]

/-- Witness for `C10_send_not_open_fails` at the freshly constructed
client (no socket yet). -/
theorem C10_send_not_open_fails_witness :
    initClient.ws ≠ some ReadyState.OPEN ∧
    send Outbound.heartbeat initClient = (false, []) :=
  ⟨by decide, C10_send_not_open_fails Outbound.heartbeat initClient (by decide)⟩
